import Mathlib

/-!
Verification of the `runner.py` execution pipeline (`exec_code` and `main`).

The source program parses a Python fragment with `ast.parse`, derives an
optional echo target from the last statement, executes the (possibly
truncated) body in a fresh namespace, evaluates the echo target against the
mutated namespace, and prints its textual form when the value is not `None`.
`main` wraps this in input decoding (JSON string from an environment
variable) and error reporting.

The embedding models the Python fragment the runner is exercised on:
integer literals, names, the binary operators `+ - * /`, calls to the
builtins `print` and `range`, plain / annotated / augmented assignments,
one-line `for` loops over `range`, and `pass`.  Machine-level details that
no statement of the development touches (float formatting, arbitrary
iterables, user-defined callables) are out of the modelled fragment.
Execution is given a fuel parameter to make the interpreter total; the
source program has no such bound, so theorems either fix a fuel large
enough for the concrete program or quantify over it.
-/

namespace Runner

/-- Binary operators of the modelled expression fragment. -/
inductive BinOp where
  | add
  | sub
  | mul
  | div
deriving Repr, DecidableEq

/-- Expressions of the modelled fragment of `ast` expression nodes. -/
inductive Expr where
  | num (n : Int)
  | name (s : String)
  | binop (op : BinOp) (l r : Expr)
  | call (f : String) (args : List Expr)
deriving Repr

/-- Statements of the modelled fragment of `ast` statement nodes.
`exprStmt` is `ast.Expr`, `assign` is `ast.Assign` (first target plus the
remaining targets, so the target list is never empty, as `ast` guarantees),
`annAssign` is `ast.AnnAssign` (annotation restricted to a plain name),
`augAssign` is `ast.AugAssign`, and `forLoop` / `passStmt` stand for the
"any other statement kind" cases exercised by the spec. -/
inductive Stmt where
  | exprStmt (e : Expr)
  | assign (t : String) (ts : List String) (e : Expr)
  | annAssign (t : String) (ann : String) (e : Expr)
  | augAssign (t : String) (op : BinOp) (e : Expr)
  | forLoop (v : String) (iter : Expr) (body : List Stmt)
  | passStmt
deriving Repr

/-- Runtime values.  `float` keeps the two operands of a true division as
an exact pair; the claims never print or further combine a float, so its
textual form is not modelled faithfully to CPython. -/
inductive Value where
  | none
  | int (n : Int)
  | str (s : String)
  | range (n : Nat)
  | float (num den : Int)
deriving Repr

/-- A Python exception, reduced to the two pieces `traceback.format_exception_only`
reports: the kind (class name) and the message. -/
structure PyErr where
  kind : String
  msg : String
deriving Repr, DecidableEq

/-- Model of `traceback.format_exception_only(type(exc), exc)`: a list of
lines, each terminated by a newline; for the simple exceptions of the
fragment it is the single line `kind': 'msg\n`. -/
def format_exception_only (e : PyErr) : List String :=
  [e.kind ++ ": " ++ e.msg ++ "\n"]

/-- The global namespace: the `globals` dict passed to `exec`/`eval`. -/
abbrev Namespace := List (String × Value)

/-- Dictionary lookup in the namespace (newest binding wins). -/
def lookupVar (ns : Namespace) (x : String) : Option Value :=
  (ns.find? (fun p => p.1 = x)).map (·.2)

/-- Dictionary store: binds `x` to `v` (shadowing any older binding). -/
def setVar (ns : Namespace) (x : String) (v : Value) : Namespace :=
  (x, v) :: ns

/-- Textual form of a value, as `print`/`str` would produce it for the
fragment (ints, strings, `None`, `range`). -/
def pyStr : Value → String
  | .none => "None"
  | .int n => toString n
  | .str s => s
  | .range n => "range(0, " ++ toString n ++ ")"
  | .float n d => toString n ++ "/" ++ toString d

/-- Semantics of a binary operator on two values.  True division by zero
raises `ZeroDivisionError`; operand combinations outside the fragment
raise `TypeError`. -/
def applyBinOp : BinOp → Value → Value → Except PyErr Value
  | .add, .int a, .int b => .ok (.int (a + b))
  | .add, .str a, .str b => .ok (.str (a ++ b))
  | .sub, .int a, .int b => .ok (.int (a - b))
  | .mul, .int a, .int b => .ok (.int (a * b))
  | .div, .int a, .int b =>
    if b = 0 then .error ⟨"ZeroDivisionError", "division by zero"⟩
    else .ok (.float a b)
  | _, _, _ => .error ⟨"TypeError", "unsupported operand type(s)"⟩

/-- Call a function by name: a name bound in the namespace is not callable
in the fragment; otherwise the builtins `print` (joins the arguments with
spaces, appends a newline, returns `None`) and `range` apply; any other
name raises `NameError`.  Returns produced stdout text and the result. -/
def callFn (ns : Namespace) (f : String) (vs : List Value) :
    String × Except PyErr Value :=
  match lookupVar ns f with
  | some _ => ("", .error ⟨"TypeError", "object is not callable"⟩)
  | Option.none =>
    if f = "print" then
      (String.intercalate " " (vs.map pyStr) ++ "\n", .ok .none)
    else if f = "range" then
      match vs with
      | [.int n] => ("", .ok (.range n.toNat))
      | _ => ("", .error ⟨"TypeError", "range expects one int"⟩)
    else
      ("", .error ⟨"NameError", "name \x27" ++ f ++ "\x27 is not defined"⟩)

mutual

/-- Evaluate an expression against the namespace, as `eval` would.
Returns the stdout text produced by side effects together with either the
value or the exception. -/
def evalExpr : Expr → Namespace → String × Except PyErr Value
  | .num n, _ => ("", .ok (.int n))
  | .name s, ns =>
    match lookupVar ns s with
    | some v => ("", .ok v)
    | Option.none =>
      ("", .error ⟨"NameError", "name \x27" ++ s ++ "\x27 is not defined"⟩)
  | .binop op l r, ns =>
    match evalExpr l ns with
    | (out, .error e) => (out, .error e)
    | (out, .ok vl) =>
      match evalExpr r ns with
      | (out2, .error e) => (out ++ out2, .error e)
      | (out2, .ok vr) =>
        match applyBinOp op vl vr with
        | .error e => (out ++ out2, .error e)
        | .ok v => (out ++ out2, .ok v)
  | .call f args, ns =>
    match evalArgs args ns with
    | (out, .error e) => (out, .error e)
    | (out, .ok vs) =>
      match callFn ns f vs with
      | (out2, r) => (out ++ out2, r)

/-- Evaluate an argument list left to right, accumulating stdout. -/
def evalArgs : List Expr → Namespace → String × Except PyErr (List Value)
  | [], _ => ("", .ok [])
  | e :: es, ns =>
    match evalExpr e ns with
    | (out, .error er) => (out, .error er)
    | (out, .ok v) =>
      match evalArgs es ns with
      | (out2, .error er) => (out ++ out2, .error er)
      | (out2, .ok vs) => (out ++ out2, .ok (v :: vs))

end

/-- Execute a statement list against the namespace, as `exec` would run the
unparsed body.  A `for` loop over `range(n)` is unrolled into the `n`
index assignments interleaved with copies of the body.  `fuel` bounds the
number of steps and makes the function total; exhaustion is reported as a
distinguished error that the real unbounded interpreter never raises. -/
def runStmts : Nat → List Stmt → Namespace → String × Except PyErr Namespace
  | 0, _, _ => ("", .error ⟨"FuelExhausted", "model fuel exhausted"⟩)
  | _ + 1, [], ns => ("", .ok ns)
  | fuel + 1, s :: rest, ns =>
    match s with
    | .passStmt => runStmts fuel rest ns
    | .exprStmt e =>
      match evalExpr e ns with
      | (out, .error er) => (out, .error er)
      | (out, .ok _) =>
        match runStmts fuel rest ns with
        | (out2, r) => (out ++ out2, r)
    | .assign t ts e =>
      match evalExpr e ns with
      | (out, .error er) => (out, .error er)
      | (out, .ok v) =>
        match runStmts fuel rest ((t :: ts).foldl (fun a x => setVar a x v) ns) with
        | (out2, r) => (out ++ out2, r)
    | .annAssign t _ e =>
      match evalExpr e ns with
      | (out, .error er) => (out, .error er)
      | (out, .ok v) =>
        match runStmts fuel rest (setVar ns t v) with
        | (out2, r) => (out ++ out2, r)
    | .augAssign t op e =>
      match lookupVar ns t with
      | Option.none =>
        ("", .error ⟨"NameError", "name \x27" ++ t ++ "\x27 is not defined"⟩)
      | some v0 =>
        match evalExpr e ns with
        | (out, .error er) => (out, .error er)
        | (out, .ok v1) =>
          match applyBinOp op v0 v1 with
          | .error er => (out, .error er)
          | .ok v =>
            match runStmts fuel rest (setVar ns t v) with
            | (out2, r) => (out ++ out2, r)
    | .forLoop v it body =>
      match evalExpr it ns with
      | (out, .error er) => (out, .error er)
      | (out, .ok val) =>
        match val with
        | .range n =>
          let unrolled :=
            ((List.range n).map
              (fun i => Stmt.assign v [] (.num (Int.ofNat i)) :: body)).flatten
          match runStmts fuel (unrolled ++ rest) ns with
          | (out2, r) => (out ++ out2, r)
        | _ => (out, .error ⟨"TypeError", "object is not iterable"⟩)

/-- The statement-splitting logic of `exec_code` (runner.py lines 8-16):
inspect the last statement of the parsed body; a bare expression is popped
from the body and becomes the echo target; an `Assign` / `AnnAssign` /
`AugAssign` stays in the body and its (first) target becomes the echo
target; anything else yields no echo target. -/
def splitProgram (body : List Stmt) : List Stmt × Option Expr :=
  match body.getLast? with
  | Option.none => (body, Option.none)
  | some s =>
    match s with
    | .exprStmt e => (body.dropLast, some e)
    | .assign t _ _ => (body, some (.name t))
    | .annAssign t _ _ => (body, some (.name t))
    | .augAssign t _ _ => (body, some (.name t))
    | _ => (body, Option.none)

/-! ### Parsing (model of `ast.parse` on the fragment) -/

/-- Tokens of the fragment: integer literals, identifiers (keywords are
read as identifiers and recognised by the statement parser), operator and
punctuation symbols, and statement-separating newlines. -/
inductive Tok where
  | int (n : Nat)
  | name (s : String)
  | sym (s : String)
  | nl
deriving Repr, DecidableEq

/-- Identifier continuation characters. -/
def isIdentChar (c : Char) : Bool :=
  c.isAlpha || c.isDigit || c = '_'

/-- Numeric value of a digit string. -/
def digitsToNat (ds : List Char) : Nat :=
  ds.foldl (fun a ch => a * 10 + (ch.toNat - 48)) 0

/-- Tokenizer for the fragment.  `fuel` only makes the recursion
structural; every step consumes at least one character, so any fuel above
the character count behaves like the unbounded scanner.  An unexpected
character is a `SyntaxError`, as `ast.parse` would raise. -/
def tokenize : Nat → List Char → Except PyErr (List Tok)
  | 0, _ => .error ⟨"FuelExhausted", "model fuel exhausted"⟩
  | _ + 1, [] => .ok []
  | fuel + 1, c :: cs =>
    if c = ' ' || c = '\t' || c = '\r' then tokenize fuel cs
    else if c = '\n' then (tokenize fuel cs).map (Tok.nl :: ·)
    else if c.isDigit then
      let ds := (c :: cs).takeWhile Char.isDigit
      let rest := (c :: cs).dropWhile Char.isDigit
      (tokenize fuel rest).map (Tok.int (digitsToNat ds) :: ·)
    else if c.isAlpha || c = '_' then
      let ds := (c :: cs).takeWhile isIdentChar
      let rest := (c :: cs).dropWhile isIdentChar
      (tokenize fuel rest).map (Tok.name (String.mk ds) :: ·)
    else if c = '+' || c = '-' || c = '*' || c = '/' || c = '=' then
      match cs with
      | '=' :: rest =>
        (tokenize fuel rest).map (Tok.sym (String.mk [c, '=']) :: ·)
      | _ => (tokenize fuel cs).map (Tok.sym (String.mk [c]) :: ·)
    else if c = ':' || c = '(' || c = ')' || c = ',' || c = ';' then
      (tokenize fuel cs).map (Tok.sym (String.mk [c]) :: ·)
    else .error ⟨"SyntaxError", "invalid syntax"⟩

/-- Split a token stream into statement groups at newlines and semicolons,
dropping empty groups (blank lines). -/
def splitStmtToks (toks : List Tok) : List (List Tok) :=
  (toks.foldr
    (fun t acc =>
      match t, acc with
      | .nl, gs => [] :: gs
      | .sym ";", gs => [] :: gs
      | t, g :: gs => (t :: g) :: gs
      | t, [] => [[t]])
    [[]]).filter (fun g => !g.isEmpty)

mutual

/-- Parse an atom: an integer literal, a call `f(args)`, a name, or a
parenthesised expression.  Returns the expression and remaining tokens. -/
def parseAtom : Nat → List Tok → Except PyErr (Expr × List Tok)
  | 0, _ => .error ⟨"FuelExhausted", "model fuel exhausted"⟩
  | fuel + 1, toks =>
    match toks with
    | .int n :: rest => .ok (.num n, rest)
    | .name f :: .sym "(" :: .sym ")" :: rest => .ok (.call f [], rest)
    | .name f :: .sym "(" :: rest =>
      match parseArgs fuel rest with
      | .error e => .error e
      | .ok (args, rest2) => .ok (.call f args, rest2)
    | .name s :: rest => .ok (.name s, rest)
    | .sym "(" :: rest =>
      match parseAdd fuel rest with
      | .error e => .error e
      | .ok (e, rest2) =>
        match rest2 with
        | .sym ")" :: rest3 => .ok (e, rest3)
        | _ => .error ⟨"SyntaxError", "invalid syntax"⟩
    | _ => .error ⟨"SyntaxError", "invalid syntax"⟩

/-- Parse a non-empty comma-separated argument list up to the closing
parenthesis. -/
def parseArgs : Nat → List Tok → Except PyErr (List Expr × List Tok)
  | 0, _ => .error ⟨"FuelExhausted", "model fuel exhausted"⟩
  | fuel + 1, toks =>
    match parseAdd fuel toks with
    | .error e => .error e
    | .ok (e, rest) =>
      match rest with
      | .sym ")" :: rest2 => .ok ([e], rest2)
      | .sym "," :: rest2 =>
        match parseArgs fuel rest2 with
        | .error er => .error er
        | .ok (es, rest3) => .ok (e :: es, rest3)
      | _ => .error ⟨"SyntaxError", "invalid syntax"⟩

/-- Parse a multiplicative expression: atoms joined by `*` or `/`. -/
def parseMul : Nat → List Tok → Except PyErr (Expr × List Tok)
  | 0, _ => .error ⟨"FuelExhausted", "model fuel exhausted"⟩
  | fuel + 1, toks =>
    match parseAtom fuel toks with
    | .error e => .error e
    | .ok (l, rest) => parseMulRest fuel l rest

/-- Left-associated continuation of a multiplicative expression. -/
def parseMulRest : Nat → Expr → List Tok → Except PyErr (Expr × List Tok)
  | 0, _, _ => .error ⟨"FuelExhausted", "model fuel exhausted"⟩
  | fuel + 1, acc, toks =>
    match toks with
    | .sym "*" :: rest =>
      match parseAtom fuel rest with
      | .error e => .error e
      | .ok (r, rest2) => parseMulRest fuel (.binop .mul acc r) rest2
    | .sym "/" :: rest =>
      match parseAtom fuel rest with
      | .error e => .error e
      | .ok (r, rest2) => parseMulRest fuel (.binop .div acc r) rest2
    | _ => .ok (acc, toks)

/-- Parse an additive expression: multiplicative parts joined by `+` or `-`. -/
def parseAdd : Nat → List Tok → Except PyErr (Expr × List Tok)
  | 0, _ => .error ⟨"FuelExhausted", "model fuel exhausted"⟩
  | fuel + 1, toks =>
    match parseMul fuel toks with
    | .error e => .error e
    | .ok (l, rest) => parseAddRest fuel l rest

/-- Left-associated continuation of an additive expression. -/
def parseAddRest : Nat → Expr → List Tok → Except PyErr (Expr × List Tok)
  | 0, _, _ => .error ⟨"FuelExhausted", "model fuel exhausted"⟩
  | fuel + 1, acc, toks =>
    match toks with
    | .sym "+" :: rest =>
      match parseMul fuel rest with
      | .error e => .error e
      | .ok (r, rest2) => parseAddRest fuel (.binop .add acc r) rest2
    | .sym "-" :: rest =>
      match parseMul fuel rest with
      | .error e => .error e
      | .ok (r, rest2) => parseAddRest fuel (.binop .sub acc r) rest2
    | _ => .ok (acc, toks)

end

/-- Parse one full expression, requiring every token to be consumed. -/
def parseExprAll (fuel : Nat) (toks : List Tok) : Except PyErr Expr :=
  match parseAdd fuel toks with
  | .error e => .error e
  | .ok (e, []) => .ok e
  | .ok (_, _ :: _) => .error ⟨"SyntaxError", "invalid syntax"⟩

/-- Collect the leading `name =` target chain of a plain assignment.
Returns the target names in order and the remaining tokens (the value
expression). -/
def collectTargets : List Tok → List String × List Tok
  | .name t :: .sym "=" :: rest =>
    match collectTargets rest with
    | (ts, rem) => (t :: ts, rem)
  | toks => ([], toks)

/-- Parse one statement from its token group.  Recognises, in order:
`pass`, a one-line `for v in e: stmt`, an annotated assignment
`t: ann = e`, an augmented assignment `t op= e`, a plain (possibly
chained) assignment, and otherwise a bare expression statement. -/
def parseStmt : Nat → List Tok → Except PyErr Stmt
  | 0, _ => .error ⟨"FuelExhausted", "model fuel exhausted"⟩
  | fuel + 1, toks =>
    match toks with
    | [.name "pass"] => .ok .passStmt
    | .name "for" :: .name v :: .name "in" :: rest =>
      match parseAdd fuel rest with
      | .error e => .error e
      | .ok (it, rest2) =>
        match rest2 with
        | .sym ":" :: rest3 =>
          match parseStmt fuel rest3 with
          | .error e => .error e
          | .ok body => .ok (.forLoop v it [body])
        | _ => .error ⟨"SyntaxError", "invalid syntax"⟩
    | .name t :: .sym ":" :: .name ann :: .sym "=" :: rest =>
      match parseExprAll fuel rest with
      | .error e => .error e
      | .ok e => .ok (.annAssign t ann e)
    | .name t :: .sym "+=" :: rest =>
      (parseExprAll fuel rest).map (.augAssign t .add)
    | .name t :: .sym "-=" :: rest =>
      (parseExprAll fuel rest).map (.augAssign t .sub)
    | .name t :: .sym "*=" :: rest =>
      (parseExprAll fuel rest).map (.augAssign t .mul)
    | .name t :: .sym "/=" :: rest =>
      (parseExprAll fuel rest).map (.augAssign t .div)
    | _ =>
      match collectTargets toks with
      | ([], _) => (parseExprAll fuel toks).map .exprStmt
      | (t :: ts, rest) =>
        (parseExprAll fuel rest).map (.assign t ts)

/-- Model of `ast.parse` on the fragment: tokenize, split into statement
groups, parse each group.  The fuel handed to the statement parser is
generous relative to the group size, so it never runs out on a
syntactically valid group. -/
def parse (s : String) : Except PyErr (List Stmt) :=
  match tokenize (s.length + 1) s.toList with
  | .error e => .error e
  | .ok toks =>
    (splitStmtToks toks).mapM
      (fun g => parseStmt (4 * g.length + 16) g)

/-! ### Input decoding (`json.loads`) and `str.strip` -/

/-- JSON values of the decoder fragment: strings, integers, booleans and
null (objects, arrays and fractional numbers are outside the inputs the
runner is exercised on; the decoder rejects them). -/
inductive JValue where
  | str (s : String)
  | num (n : Int)
  | bool (b : Bool)
  | null
deriving Repr, DecidableEq

/-- JSON whitespace. -/
def jsonWs (c : Char) : Bool :=
  c = ' ' || c = '\t' || c = '\n' || c = '\r'

/-- Table of JSON string-escape characters and the characters they stand
for; `\u` escapes are outside the fragment. -/
def escTable : List (Char × Char) :=
  [('"', '"'), ('\\', '\\'), ('/', '/'), ('n', '\n'), ('t', '\t'),
   ('r', '\r'), ('b', '\x08'), ('f', '\x0c')]

/-- Decode a JSON string-escape character via the table. -/
def escChar (c : Char) : Option Char :=
  (escTable.find? (fun p => p.1 = c)).map (·.2)

/-- Scan the body of a JSON string after the opening quote, up to the
closing quote.  Control characters and bad escapes are rejected. -/
def jsonString : Nat → List Char → Option (String × List Char)
  | 0, _ => Option.none
  | _ + 1, [] => Option.none
  | fuel + 1, c :: cs =>
    if c = '"' then some ("", cs)
    else if c = '\\' then
      match cs with
      | e :: cs2 =>
        match escChar e with
        | some ch =>
          (jsonString fuel cs2).map (fun p => (String.mk (ch :: p.1.toList), p.2))
        | Option.none => Option.none
      | [] => Option.none
    else if c.toNat < 32 then Option.none
    else (jsonString fuel cs).map (fun p => (String.mk (c :: p.1.toList), p.2))

/-- Holds when only whitespace remains after a decoded value (otherwise
`json.loads` raises "Extra data"). -/
def jsonEnd (cs : List Char) : Bool :=
  (cs.dropWhile jsonWs).isEmpty

/-- Decode the digit run of a JSON integer; fractional or exponent parts
are outside the fragment and rejected. -/
def jsonNum (neg : Bool) (cs : List Char) : Except String JValue :=
  let ds := cs.takeWhile Char.isDigit
  let rest := cs.dropWhile Char.isDigit
  if ds.isEmpty then .error "Expecting value"
  else
    match rest with
    | '.' :: _ => .error "fractional numbers outside modelled fragment"
    | 'e' :: _ => .error "exponents outside modelled fragment"
    | 'E' :: _ => .error "exponents outside modelled fragment"
    | _ =>
      if jsonEnd rest then
        .ok (.num (if neg then -(digitsToNat ds : Int) else (digitsToNat ds : Int)))
      else .error "Extra data"

/-- Model of `json.loads` on the decoder fragment: a single top-level
string, integer, boolean or null, surrounded by optional whitespace.
Every failure is a `json.decoder.JSONDecodeError`, which `main` catches;
the message is irrelevant to the caller. -/
def json_loads (raw : String) : Except String JValue :=
  match raw.toList.dropWhile jsonWs with
  | [] => .error "Expecting value"
  | '"' :: rest =>
    match jsonString (rest.length + 1) rest with
    | some (s, rest2) =>
      if jsonEnd rest2 then .ok (.str s) else .error "Extra data"
    | Option.none => .error "Unterminated string"
  | '-' :: rest => jsonNum true rest
  | c :: rest =>
    if c.isDigit then jsonNum false (c :: rest)
    else if (c :: rest).take 4 = "true".toList then
      if jsonEnd ((c :: rest).drop 4) then .ok (.bool true) else .error "Extra data"
    else if (c :: rest).take 5 = "false".toList then
      if jsonEnd ((c :: rest).drop 5) then .ok (.bool false) else .error "Extra data"
    else if (c :: rest).take 4 = "null".toList then
      if jsonEnd ((c :: rest).drop 4) then .ok .null else .error "Extra data"
    else .error "Expecting value"

/-- Python `str` whitespace as `str.strip` removes it (ASCII part). -/
def isPyWs (c : Char) : Bool :=
  c = ' ' || c = '\t' || c = '\n' || c = '\r' || c = '\x0b' || c = '\x0c'

/-- Model of `raw_code.strip()`. -/
def pyStrip (s : String) : String :=
  String.mk (((s.toList.dropWhile isPyWs).reverse.dropWhile isPyWs).reverse)

/-! ### The pipeline: `exec_code` and `main` -/

/-- Python type name of a decoded JSON value, used in the `TypeError`
that `compile`/`ast.parse` raises on a non-string argument. -/
def jsonTypeName : JValue → String
  | .str _ => "str"
  | .num _ => "int"
  | .bool _ => "bool"
  | .null => "NoneType"

/-- Model of `exec_code(code, {})` (runner.py lines 7-21): parse the
source, split off the echo target, execute the residual body in a fresh
namespace, then evaluate the echo target against the mutated namespace
and append its textual form and a newline to stdout unless the value is
`None`.  A non-string argument makes `ast.parse` raise `TypeError`.
Returns the stdout text produced so far together with success or the
escaping exception. -/
def exec_code (fuel : Nat) (code : JValue) : String × Except PyErr Unit :=
  match code with
  | .str s =>
    match parse s with
    | .error e => ("", .error e)
    | .ok prog =>
      match splitProgram prog with
      | (residual, echo) =>
        match runStmts fuel residual [] with
        | (out, .error e) => (out, .error e)
        | (out, .ok ns) =>
          match echo with
          | Option.none => (out, .ok ())
          | some ex =>
            match evalExpr ex ns with
            | (out2, .error e) => (out ++ out2, .error e)
            | (out2, .ok v) =>
              match v with
              | .none => (out ++ out2, .ok ())
              | v => (out ++ out2 ++ pyStr v ++ "\n", .ok ())
  | other =>
    ("", .error ⟨"TypeError",
      "expected str, bytes or AST, got " ++ jsonTypeName other⟩)

/-- Model of `main(raw_code)` (runner.py lines 23-39).  The result triple
is (exit status, stdout text, stderr text).  The two fixed diagnostics are
printed as lines (hence the trailing newline); a formatted exception is
printed with `end=""`, so stderr is exactly the joined
`format_exception_only` lines with no added newline. -/
def main (fuel : Nat) (raw_code : Option String) : Nat × String × String :=
  match raw_code with
  | Option.none => (1, "", "Error: no code to execute\n")
  | some raw =>
    if pyStrip raw = "" then (1, "", "Error: no code to execute\n")
    else
      match json_loads raw with
      | .error _ => (1, "", "Error: JSON decode failed\n")
      | .ok code =>
        match exec_code fuel code with
        | (out, .ok _) => (0, out, "")
        | (out, .error e) =>
          (1, out, String.intercalate "\n" (format_exception_only e))

/-! ### Theorems -/

/-- Characterisation of the splitter on a body with last statement `s`:
only a bare expression statement is popped; all three assignment kinds
stay in the residual body with their (first) target as echo target; any
other kind yields no echo target. -/
theorem splitProgram_last (pre : List Stmt) (s : Stmt) :
    splitProgram (pre ++ [s]) =
      match s with
      | .exprStmt e => (pre, some e)
      | .assign t _ _ => (pre ++ [s], some (.name t))
      | .annAssign t _ _ => (pre ++ [s], some (.name t))
      | .augAssign t _ _ => (pre ++ [s], some (.name t))
      | _ => (pre ++ [s], Option.none) := by
  unfold splitProgram
  rw [List.getLast?_concat]
  cases s <;> simp [List.dropLast_concat]

/-- Claim C1, counterexample: for the one-statement program `x = 5`
(a PlainAssignment), the residual body still contains that statement —
the claim says it is removed before execution. -/
theorem C1_counterexample :
    (splitProgram [Stmt.assign "x" [] (Expr.num 5)]).1
        = [Stmt.assign "x" [] (Expr.num 5)] ∧
    (splitProgram [Stmt.assign "x" [] (Expr.num 5)]).1 ≠ [] :=
  ⟨rfl, by simp [splitProgram]⟩

/-- Claim C1 (amended): only a last bare Expression statement is removed
from the residual body; a last PlainAssignment, AnnotatedAssignment or
AugmentedAssignment statement remains in the executed body and its
(first) target is re-evaluated for echoing. -/
theorem C1_residual_body (pre : List Stmt) :
    (∀ e, splitProgram (pre ++ [Stmt.exprStmt e]) = (pre, some e)) ∧
    (∀ t ts e, splitProgram (pre ++ [Stmt.assign t ts e])
        = (pre ++ [Stmt.assign t ts e], some (Expr.name t))) ∧
    (∀ t a e, splitProgram (pre ++ [Stmt.annAssign t a e])
        = (pre ++ [Stmt.annAssign t a e], some (Expr.name t))) ∧
    (∀ t op e, splitProgram (pre ++ [Stmt.augAssign t op e])
        = (pre ++ [Stmt.augAssign t op e], some (Expr.name t))) := by
  refine ⟨?_, ?_, ?_, ?_⟩ <;> intros <;> rw [splitProgram_last]

/-- Claim C2: the JSON-encoded source `"x = 5"` prints `5` and a newline
to stdout and exits with status 0. -/
theorem C2_assignment_echo :
    main 100 (some "\"x = 5\"") = (0, "5\n", "") := by rfl

/-- Claim C3: the JSON-encoded source `"x: int = 5"` prints `5` and exits
with status 0; the annotated assignment is kept (exactly once) in the
residual body with echo target the bare name `x`, and evaluating a bare
name produces no output, so the right-hand side is evaluated exactly once. -/
theorem C3_annassign_once :
    main 100 (some "\"x: int = 5\"") = (0, "5\n", "") ∧
    splitProgram [Stmt.annAssign "x" "int" (Expr.num 5)]
      = ([Stmt.annAssign "x" "int" (Expr.num 5)], some (Expr.name "x")) ∧
    ∀ ns : Namespace, (evalExpr (Expr.name "x") ns).1 = "" := by
  refine ⟨rfl, rfl, ?_⟩
  intro ns
  unfold evalExpr
  cases lookupVar ns "x" <;> rfl

/-- Claim C4: whenever the decoded source makes parsing, execution or
echo evaluation raise an exception, `main` writes exactly the joined
`format_exception_only` lines (the exception kind and message, with no
newline added beyond the one the formatted message carries) to stderr
and returns 1; concretely, the source `"1/0"` yields the zero-division
kind and message and exit status 1. -/
theorem C4_exception_report :
    (∀ (fuel : Nat) (raw : String) (code : JValue) (e : PyErr) (out : String),
        pyStrip raw ≠ "" → json_loads raw = .ok code →
        exec_code fuel code = (out, .error e) →
        main fuel (some raw)
          = (1, out, String.intercalate "\n" (format_exception_only e))) ∧
    main 100 (some "\"1/0\"") = (1, "", "ZeroDivisionError: division by zero\n") := by
  constructor
  · intro fuel raw code e out hstrip hjson hexec
    simp [main, hstrip, hjson, hexec]
  · rfl

/-- Claim C4, witness at the source `"1/0"`. -/
theorem C4_witness :
    main 100 (some "\"1/0\"")
      = (1, "", String.intercalate "\n"
          (format_exception_only ⟨"ZeroDivisionError", "division by zero"⟩)) :=
  C4_exception_report.1 100 "\"1/0\"" (JValue.str "1/0")
    ⟨"ZeroDivisionError", "division by zero"⟩ "" (by decide) rfl rfl

/-- Claim C5: an absent or whitespace-only raw input yields exit status 1
and the fixed diagnostic line; the result holds for every fuel, fuel 0
included, so no part of the decode/parse/execute pipeline is reached. -/
theorem C5_no_code :
    (∀ fuel : Nat, main fuel Option.none = (1, "", "Error: no code to execute\n")) ∧
    (∀ (fuel : Nat) (raw : String), pyStrip raw = "" →
        main fuel (some raw) = (1, "", "Error: no code to execute\n")) := by
  constructor
  · intro fuel; rfl
  · intro fuel raw h
    simp [main, h]

/-- Claim C5, witness at the whitespace-only input and fuel 0. -/
theorem C5_witness :
    main 0 (some " \t\n ") = (1, "", "Error: no code to execute\n") :=
  C5_no_code.2 0 " \t\n " (by decide)

/-- Claim C6: a non-blank raw input the JSON decoder rejects yields exit
status 1 and the fixed decode diagnostic line, for every fuel (fuel 0
included, so no code is executed); concretely the unquoted bare word
`hello` is rejected. -/
theorem C6_decode_failed :
    (∀ (fuel : Nat) (raw msg : String),
        pyStrip raw ≠ "" → json_loads raw = .error msg →
        main fuel (some raw) = (1, "", "Error: JSON decode failed\n")) ∧
    main 0 (some "hello") = (1, "", "Error: JSON decode failed\n") := by
  constructor
  · intro fuel raw msg hstrip hjson
    simp [main, hstrip, hjson]
  · rfl

/-- Claim C6, witness at the bare word `hello` and fuel 0. -/
theorem C6_witness :
    main 0 (some "hello") = (1, "", "Error: JSON decode failed\n") :=
  C6_decode_failed.1 0 "hello" "Expecting value" (by decide) rfl

/-- Claim C7: the JSON-encoded source `"1 + 1"` has its bare final
expression removed from the executed body and echoed: stdout is `2`
followed by a newline and the exit status is 0. -/
theorem C7_expression_echo :
    main 100 (some "\"1 + 1\"") = (0, "2\n", "") ∧
    splitProgram [Stmt.exprStmt (Expr.binop .add (Expr.num 1) (Expr.num 1))]
      = ([], some (Expr.binop .add (Expr.num 1) (Expr.num 1))) := ⟨rfl, rfl⟩

/-- Claim C8: whenever the echo target evaluates to `None`, `exec_code`
produces exactly the execution output followed by the echo evaluation's
own side-effect output — no echo line — and succeeds; concretely the
source `"print(1)"` prints only `1` and exits with status 0. -/
theorem C8_none_suppresses_echo :
    (∀ (fuel : Nat) (s : String) (prog residual : List Stmt) (ex : Expr)
        (ns : Namespace) (out out2 : String),
        parse s = .ok prog →
        splitProgram prog = (residual, some ex) →
        runStmts fuel residual [] = (out, .ok ns) →
        evalExpr ex ns = (out2, .ok Value.none) →
        exec_code fuel (JValue.str s) = (out ++ out2, .ok ())) ∧
    main 100 (some "\"print(1)\"") = (0, "1\n", "") := by
  constructor
  · intro fuel s prog residual ex ns out out2 hp hs hr he
    simp [exec_code, hp, hs, hr, he]
  · rfl

/-- Claim C8, witness at the source `print(1)`. -/
theorem C8_witness :
    exec_code 100 (JValue.str "print(1)") = ("" ++ "1\n", Except.ok ()) :=
  C8_none_suppresses_echo.1 100 "print(1)"
    [Stmt.exprStmt (Expr.call "print" [Expr.num 1])] []
    (Expr.call "print" [Expr.num 1]) [] "" "1\n" rfl rfl rfl rfl

/-- Claim C9: a last statement of any other kind (a `for` loop or `pass`
in the fragment) yields no echo target and an unchanged body; concretely
the source `"for i in range(3): pass"` echoes nothing and exits with
status 0. -/
theorem C9_other_stmt_kinds :
    (∀ (pre : List Stmt) (v : String) (it : Expr) (bd : List Stmt),
        splitProgram (pre ++ [Stmt.forLoop v it bd])
          = (pre ++ [Stmt.forLoop v it bd], Option.none)) ∧
    (∀ pre : List Stmt,
        splitProgram (pre ++ [Stmt.passStmt])
          = (pre ++ [Stmt.passStmt], Option.none)) ∧
    main 100 (some "\"for i in range(3): pass\"") = (0, "", "") := by
  refine ⟨?_, ?_, rfl⟩ <;> intros <;> rw [splitProgram_last]

/-- Claim C10: every non-blank raw input the JSON decoder accepts as a
non-string value bypasses the decode diagnostic entirely; `ast.parse`
rejects the non-string argument and the failure surfaces on stderr as a
formatted `TypeError` naming the decoded type, with exit status 1 — the
stderr text is never the decode diagnostic.  Concretely, the JSON number
`123` decodes and fails this way. -/
theorem C10_json_nonstring :
    (∀ (fuel : Nat) (raw : String) (code : JValue),
        pyStrip raw ≠ "" → json_loads raw = .ok code →
        (∀ s, code ≠ JValue.str s) →
        main fuel (some raw)
            = (1, "", String.intercalate "\n" (format_exception_only
                ⟨"TypeError", "expected str, bytes or AST, got "
                  ++ jsonTypeName code⟩)) ∧
        (main fuel (some raw)).2.2 ≠ "Error: JSON decode failed\n") ∧
    json_loads "123" = .ok (JValue.num 123) ∧
    main 100 (some "123")
      = (1, "", "TypeError: expected str, bytes or AST, got int\n") := by
  refine ⟨?_, rfl, rfl⟩
  intro fuel raw code hstrip hjson hns
  have hex : exec_code fuel code
      = ("", .error ⟨"TypeError",
          "expected str, bytes or AST, got " ++ jsonTypeName code⟩) := by
    cases code with
    | str s => exact absurd rfl (hns s)
    | num n => rfl
    | bool b => rfl
    | null => rfl
  have hmain : main fuel (some raw)
      = (1, "", String.intercalate "\n" (format_exception_only
          ⟨"TypeError", "expected str, bytes or AST, got "
            ++ jsonTypeName code⟩)) := by
    simp [main, hstrip, hjson, hex]
  refine ⟨hmain, ?_⟩
  rw [hmain]
  cases code with
  | str s => exact absurd rfl (hns s)
  | num n => simp only [jsonTypeName]; decide
  | bool b => simp only [jsonTypeName]; decide
  | null => simp only [jsonTypeName]; decide

/-- Claim C10, witness at the JSON number `123`. -/
theorem C10_witness :
    main 100 (some "123")
        = (1, "", String.intercalate "\n" (format_exception_only
            ⟨"TypeError", "expected str, bytes or AST, got "
              ++ jsonTypeName (JValue.num 123)⟩)) ∧
    (main 100 (some "123")).2.2 ≠ "Error: JSON decode failed\n" :=
  C10_json_nonstring.1 100 "123" (JValue.num 123) (by decide) rfl
    (fun _ h => JValue.noConfusion h)

end Runner
